import Mathlib

/-!
Verification development for the real-time synchronization core of the
coti-crypto wallet client (files `src/webSocket.ts` and `src/wallet.ts`).

JavaScript `Map` objects are modelled as association lists in insertion
order: `set` replaces the value in place when the key is present and
appends otherwise, `delete` removes the entry, and
`Array.from(map.keys()).pop()` is `getLast?` of the key list.  Addresses
carry an `oid` field modelling JavaScript object identity, since the
propagation subscription map is keyed by the address object itself.
Decimal amounts (`BigDecimal`) are modelled as integers: the claims use
only construction and equality of amounts.
-/

/-- Lookup in an insertion-ordered association list, as `Map.prototype.get`. -/
def mapGet {α β : Type} [DecidableEq α] : List (α × β) → α → Option β
  | [], _ => none
  | (k, v) :: rest, key => if k = key then some v else mapGet rest key

/-- Insertion or in-place replacement, as `Map.prototype.set`. -/
def mapSet {α β : Type} [DecidableEq α] : List (α × β) → α → β → List (α × β)
  | [], key, val => [(key, val)]
  | (k, v) :: rest, key, val => if k = key then (k, val) :: rest else (k, v) :: mapSet rest key val

/-- Removal of the entry for a key, as `Map.prototype.delete`. -/
def mapDelete {α β : Type} [DecidableEq α] : List (α × β) → α → List (α × β)
  | [], _ => []
  | (k, v) :: rest, key => if k = key then rest else (k, v) :: mapDelete rest key

/-- Amounts: `BigDecimal` / `js-big-decimal` values, modelled as integers. -/
abbrev Amount := Int

/-- An indexed address (`IndexedAddress` from address.ts): hex string, HD
derivation index, and the balance pair stored on the address object.  The
`oid` field models JavaScript object identity, which is the key equality
used by the propagation subscription map. -/
structure IndexedAddress where
  oid : Nat
  index : Nat
  addressHex : String
  balance : Amount
  preBalance : Amount
deriving DecidableEq

/-- A stored transaction record.  Modelled from the spec: the class
`ReducedTransaction` lives in transaction.ts, which is absent from the
sources; per section 3 of the spec a stored transaction record is keyed by
the transaction hash and carries the last-known consensus-update
timestamp. -/
structure ReducedTransaction where
  hash : String
  transactionConsensusUpdateTime : Option Int
deriving DecidableEq

/-- An incoming transaction (`Transaction` / `TransactionData`): hash,
consensus-update timestamp, and further payload not kept in the reduced
record (represented by one extra field). -/
structure Transaction where
  hash : String
  transactionConsensusUpdateTime : Option Int
  attachmentTime : Option Int
deriving DecidableEq

/-- Modelled from the spec: the constructor `new ReducedTransaction(tx)`
(transaction.ts is absent from the sources) projects the incoming
transaction to the stored record, keeping hash and consensus-update
timestamp. -/
def ReducedTransaction.ofTransaction (t : Transaction) : ReducedTransaction :=
  { hash := t.hash, transactionConsensusUpdateTime := t.transactionConsensusUpdateTime }

/-- Wallet state owned by `BaseWallet` / `IndexedWallet` (wallet.ts):
`addressMap` keyed by hex, `indexToAddressHexMap` kept by `IndexedWallet`,
`transactionMap` keyed by transaction hash, and the configured maximum
address count (`getMaxAddress`). -/
structure WalletState where
  addressMap : List (String × IndexedAddress)
  indexToAddressHexMap : List (Nat × String)
  transactionMap : List (String × ReducedTransaction)
  maxAddress : Option Nat
deriving DecidableEq

/-- Models `IndexedWallet.setAddressToMap` (wallet.ts): store the address
under its hex and record its index. -/
def WalletState.setAddressToMap (w : WalletState) (a : IndexedAddress) : WalletState :=
  { w with
      addressMap := mapSet w.addressMap a.addressHex a,
      indexToAddressHexMap := mapSet w.indexToAddressHexMap a.index a.addressHex }

/-- Models `BaseWallet.setAddressWithBalance` (wallet.ts lines 94-103):
set the balance pair on the address object, store it in the map, and emit
`balanceChange` with the updated address (returned as second component). -/
def WalletState.setAddressWithBalance (w : WalletState) (a : IndexedAddress)
    (balance preBalance : Amount) : WalletState × IndexedAddress :=
  let a' := { a with balance := balance, preBalance := preBalance }
  (w.setAddressToMap a', a')

/-- Models `BaseWallet.setTransaction` (wallet.ts lines 135-151): if a
record with the same hash and the identical consensus-update timestamp is
already stored, return without touching the map (no `receivedTransaction`
event); otherwise store the reduced record and emit the event.  The
boolean result is whether the event was emitted. -/
def WalletState.setTransaction (w : WalletState) (tx : Transaction) : WalletState × Bool :=
  match mapGet w.transactionMap tx.hash with
  | some existing =>
    if existing.transactionConsensusUpdateTime = tx.transactionConsensusUpdateTime then
      (w, false)
    else
      ({ w with transactionMap := mapSet w.transactionMap tx.hash (ReducedTransaction.ofTransaction tx) },
       true)
  | none =>
    ({ w with transactionMap := mapSet w.transactionMap tx.hash (ReducedTransaction.ofTransaction tx) },
     true)

/-- State owned by one `WebSocket` instance (webSocket.ts lines 12-19):
the three subscription maps, the wallet, whether the wallet is an
`IndexedWallet`, and a counter producing fresh transport subscription
handles (`client.subscribe` returns a fresh handle each call). -/
structure WSState where
  indexedWallet : Bool
  propagationSubscriptions : List (IndexedAddress × Nat)
  balanceSubscriptions : List (String × Nat)
  transactionsSubscriptions : List (String × Nat)
  wallet : WalletState
  nextHandle : Nat
deriving DecidableEq

/-- Observable effects of one handler run: transport topics subscribed,
handles unsubscribed, snapshot balance fetches issued
(`walletUtils.checkBalances`), and wallet events emitted. -/
structure Effects where
  subscribed : List String
  unsubscribed : List Nat
  snapshotFetches : List String
  generateAddressEmits : List String
  balanceChangeEmits : List String
  receivedTransactionEmits : List String
deriving DecidableEq

/-- No observable effects. -/
def Effects.none : Effects :=
  { subscribed := [], unsubscribed := [], snapshotFetches := [],
    generateAddressEmits := [], balanceChangeEmits := [], receivedTransactionEmits := [] }

/-- Concatenation of effect logs of two successive phases. -/
def Effects.append (e1 e2 : Effects) : Effects :=
  { subscribed := e1.subscribed ++ e2.subscribed,
    unsubscribed := e1.unsubscribed ++ e2.unsubscribed,
    snapshotFetches := e1.snapshotFetches ++ e2.snapshotFetches,
    generateAddressEmits := e1.generateAddressEmits ++ e2.generateAddressEmits,
    balanceChangeEmits := e1.balanceChangeEmits ++ e2.balanceChangeEmits,
    receivedTransactionEmits := e1.receivedTransactionEmits ++ e2.receivedTransactionEmits }

/-- Topic of balance pushes for an address. -/
def balanceTopic (addressHex : String) : String := "/topic/" ++ addressHex

/-- Topic of transaction pushes for an address. -/
def transactionTopic (addressHex : String) : String := "/topic/addressTransactions/" ++ addressHex

/-- Topic of propagation (first-use) pushes for an address. -/
def propagationTopic (addressHex : String) : String := "/topic/address/" ++ addressHex

/-- Models `connectToAddress` (webSocket.ts lines 116-154): open a balance
subscription unless one is already stored for this hex, then likewise a
transaction subscription.  Returns the new state and the topics newly
subscribed on the transport. -/
def connectToAddress (addressHex : String) (s : WSState) : WSState × List String :=
  let afterBalance : WSState × List String :=
    match mapGet s.balanceSubscriptions addressHex with
    | some _ => (s, [])
    | none =>
      ({ s with
          balanceSubscriptions := mapSet s.balanceSubscriptions addressHex s.nextHandle,
          nextHandle := s.nextHandle + 1 },
       [balanceTopic addressHex])
  match mapGet afterBalance.1.transactionsSubscriptions addressHex with
  | some _ => afterBalance
  | none =>
    ({ afterBalance.1 with
        transactionsSubscriptions :=
          mapSet afterBalance.1.transactionsSubscriptions addressHex afterBalance.1.nextHandle,
        nextHandle := afterBalance.1.nextHandle + 1 },
     afterBalance.2 ++ [transactionTopic addressHex])

/-- Models `addressPropagationSubscriber` (webSocket.ts lines 156-182).
The source reads `alreadySubscribed` and, when it is set, only logs a
skip message: it then subscribes on the transport and overwrites the
stored handle unconditionally.  Returns the new state and the topic
subscribed. -/
def addressPropagationSubscriber (address : IndexedAddress) (s : WSState) : WSState × List String :=
  ({ s with
      propagationSubscriptions := mapSet s.propagationSubscriptions address s.nextHandle,
      nextHandle := s.nextHandle + 1 },
   [propagationTopic address.addressHex])

/-- Models `checkBalanceAndSubscribeNewAddress` (webSocket.ts lines
184-201).  The next index is one past the index of the last key of the
propagation map (`Array.from(keys()).pop().getIndex() + 1`); when the map
is empty, `pop()` is `undefined` and `.getIndex()` raises a TypeError,
modelled by the `none` result.  Otherwise: subscribe the next address for
propagation, fetch the balance snapshot for the confirmed address (the
`snap` oracle models `walletUtils.checkBalances`), apply it through
`setAddressWithBalance`, and open balance and transaction subscriptions
for the confirmed address.  `genAddress` models
`wallet.generateAddressByIndex`.  No part of this path consults
`wallet.maxAddress`. -/
def checkBalanceAndSubscribeNewAddress (genAddress : Nat → IndexedAddress)
    (snap : String → Amount × Amount) (address : IndexedAddress) (s : WSState) :
    Option (WSState × Effects) :=
  if s.indexedWallet then
    match (s.propagationSubscriptions.map Prod.fst).getLast? with
    | Option.none => Option.none
    | some lastKey =>
      let nextAddress := genAddress (lastKey.index + 1)
      let step1 := addressPropagationSubscriber nextAddress s
      let addressHex := address.addressHex
      let balances := snap addressHex
      let step2 := step1.1.wallet.setAddressWithBalance address balances.1 balances.2
      let step3 := connectToAddress addressHex { step1.1 with wallet := step2.1 }
      some (step3.1,
        { subscribed := step1.2 ++ step3.2,
          unsubscribed := [],
          snapshotFetches := [addressHex],
          generateAddressEmits := [],
          balanceChangeEmits := [step2.2.addressHex],
          receivedTransactionEmits := [] })
  else some (s, Effects.none)

/-- Payload of a propagation push. -/
structure PropagationPush where
  addressHash : String
deriving DecidableEq

/-- Models the propagation subscription callback (webSocket.ts lines
164-180).  On a hash mismatch an Error is thrown and caught by the
surrounding catch: no state change, no effects.  When the subscription is
no longer registered the push is silently stale.  Otherwise the handle is
unsubscribed and removed, `generateAddress` is emitted, and
`checkBalanceAndSubscribeNewAddress` runs; if that call throws (empty
propagation map), the catch keeps the state reached so far. -/
def addressPropagationCallback (genAddress : Nat → IndexedAddress)
    (snap : String → Amount × Amount) (address : IndexedAddress)
    (data : PropagationPush) (s : WSState) : WSState × Effects :=
  if data.addressHash = address.addressHex then
    match mapGet s.propagationSubscriptions address with
    | Option.none => (s, Effects.none)
    | some handle =>
      let s1 : WSState :=
        { s with propagationSubscriptions := mapDelete s.propagationSubscriptions address }
      let e1 : Effects :=
        { subscribed := [], unsubscribed := [handle], snapshotFetches := [],
          generateAddressEmits := [address.addressHex], balanceChangeEmits := [],
          receivedTransactionEmits := [] }
      match checkBalanceAndSubscribeNewAddress genAddress snap address s1 with
      | Option.none => (s1, e1)
      | some r => (r.1, e1.append r.2)
  else (s, Effects.none)

/-- Payload of a balance push as parsed from the message body. -/
structure BalancePush where
  message : String
  addressHash : String
  balance : Option Amount
  preBalance : Option Amount
deriving DecidableEq

/-- Models the balance subscription callback (webSocket.ts lines 118-134):
only bodies whose `message` is exactly `Balance Updated!` are processed;
an unknown address hash raises an Error that the catch swallows; `null`
balance fields are mapped to zero; the update is delegated to
`setAddressWithBalance`, which emits `balanceChange`. -/
def balanceSubscriptionCallback (data : BalancePush) (s : WSState) : WSState × Effects :=
  if data.message = "Balance Updated!" then
    match mapGet s.wallet.addressMap data.addressHash with
    | Option.none => (s, Effects.none)
    | some address =>
      let bal := data.balance.getD 0
      let preBal := data.preBalance.getD 0
      let step := s.wallet.setAddressWithBalance address bal preBal
      ({ s with wallet := step.1 },
       { subscribed := [], unsubscribed := [], snapshotFetches := [],
         generateAddressEmits := [], balanceChangeEmits := [step.2.addressHex],
         receivedTransactionEmits := [] })
  else (s, Effects.none)

/-- Sequential delivery of a list of balance pushes to the balance
subscription callback. -/
def processBalancePushes (pushes : List BalancePush) (s : WSState) : WSState :=
  pushes.foldl (fun st p => (balanceSubscriptionCallback p st).1) s

/-- Models `addressesUnsubscribe` (webSocket.ts lines 61-65): every handle
of the three maps gets `unsubscribe()` invoked on it (the `async` forEach
callbacks turn per-handle failures into unawaited rejections, so the
sweep never stops); the maps themselves are not mutated.  `fails` tells
which handles reject.  Returns the state, the handles on which
unsubscribe was invoked, and those whose unsubscribe succeeded. -/
def addressesUnsubscribe (fails : Nat → Bool) (s : WSState) : WSState × List Nat × List Nat :=
  let attempted :=
    s.propagationSubscriptions.map Prod.snd ++ s.balanceSubscriptions.map Prod.snd ++
      s.transactionsSubscriptions.map Prod.snd
  (s, attempted, attempted.filter (fun h => !fails h))

/-- Models the error callback of `reconnect` (webSocket.ts lines 67-89)
for a run in which the connection never succeeds (`connected` stays
false): processing `n` consecutive reconnect failures starting from the
given retry counter, the callback restarts `reconnect` while the counter
is at most 6 (incrementing it) and otherwise fires the terminal
`reconnectFailedCallback` once, after which no client exists and no
further failure can occur.  Result: (number of reconnect calls started,
number of terminal callback firings). -/
def reconnectFailures : Nat → Nat → Nat × Nat
  | 0, _ => (0, 0)
  | n + 1, counter =>
    if counter ≤ 6 then
      let r := reconnectFailures n (counter + 1)
      (r.1 + 1, r.2)
    else (0, 1)

/-- Empty wallet used by concrete evaluations. -/
def wallet0 : WalletState :=
  { addressMap := [], indexToAddressHexMap := [], transactionMap := [], maxAddress := Option.none }

/-- Sample address of index 0 with hex `a0`. -/
def sampleAddress : IndexedAddress :=
  { oid := 1, index := 0, addressHex := "a0", balance := 0, preBalance := 0 }

/-- Hex string of `sampleAddress`. -/
def hexA0 : String := "a0"

/-- Concrete state with one entry in each subscription map. -/
def stateC3 : WSState :=
  { indexedWallet := true,
    propagationSubscriptions := [(sampleAddress, 1)],
    balanceSubscriptions := [(hexA0, 2)],
    transactionsSubscriptions := [(hexA0, 3)],
    wallet := wallet0,
    nextHandle := 4 }

/-- Concrete state in which `sampleAddress` already holds a propagation
subscription handle. -/
def stateC7 : WSState :=
  { indexedWallet := true,
    propagationSubscriptions := [(sampleAddress, 3)],
    balanceSubscriptions := [],
    transactionsSubscriptions := [],
    wallet := wallet0,
    nextHandle := 7 }

/-- Address of index 4 with hex `a4`, the only remaining frontier entry in
`stateC9`. -/
def addressC9 : IndexedAddress :=
  { oid := 4, index := 4, addressHex := "a4", balance := 0, preBalance := 0 }

/-- Concrete state whose propagation map holds only `addressC9`. -/
def stateC9 : WSState :=
  { indexedWallet := true,
    propagationSubscriptions := [(addressC9, 5)],
    balanceSubscriptions := [],
    transactionsSubscriptions := [],
    wallet := wallet0,
    nextHandle := 9 }

/-- Propagation push carrying the hash of `addressC9`. -/
def pushC9 : PropagationPush := { addressHash := "a4" }

/-- Propagation push whose hash matches no subscribed address below. -/
def pushMismatch : PropagationPush := { addressHash := "b9" }

/-- Address generator used by concrete evaluations, modelling
`generateAddressByIndex`: a fresh object (distinct oid) per call. -/
def genSample (k : Nat) : IndexedAddress :=
  { oid := 100 + k, index := k, addressHex := "g7", balance := 0, preBalance := 0 }

/-- Snapshot oracle used by concrete evaluations. -/
def snapSample (_ : String) : Amount × Amount := (11, 13)

/-- Transaction record stored in `walletC4`. -/
def recC4 : ReducedTransaction := { hash := "t1", transactionConsensusUpdateTime := some 5 }

/-- Incoming transaction with the hash and consensus time of `recC4`. -/
def txC4 : Transaction :=
  { hash := "t1", transactionConsensusUpdateTime := some 5, attachmentTime := some 9 }

/-- Incoming transaction with the hash of `recC4` but a newer consensus
time. -/
def txC4b : Transaction :=
  { hash := "t1", transactionConsensusUpdateTime := some 6, attachmentTime := some 9 }

/-- Wallet storing exactly the record `recC4`. -/
def walletC4 : WalletState :=
  { addressMap := [], indexToAddressHexMap := [], transactionMap := [(recC4.hash, recC4)],
    maxAddress := Option.none }

/-- Hex string of `addressC5`. -/
def hexC5 : String := "a5"

/-- Known wallet address receiving the balance pushes of the C5 witness. -/
def addressC5 : IndexedAddress :=
  { oid := 5, index := 0, addressHex := "a5", balance := 1, preBalance := 1 }

/-- State whose wallet knows `addressC5`. -/
def stateC5 : WSState :=
  { indexedWallet := true,
    propagationSubscriptions := [],
    balanceSubscriptions := [],
    transactionsSubscriptions := [],
    wallet := { addressMap := [(hexC5, addressC5)], indexToAddressHexMap := [],
                transactionMap := [], maxAddress := Option.none },
    nextHandle := 0 }

/-- First balance push of the C5 witness: balance 3, preBalance null. -/
def pushC5a : BalancePush :=
  { message := "Balance Updated!", addressHash := "a5", balance := some 3,
    preBalance := Option.none }

/-- Second balance push of the C5 witness: balance null, preBalance 8. -/
def pushC5b : BalancePush :=
  { message := "Balance Updated!", addressHash := "a5", balance := Option.none,
    preBalance := some 8 }

/-- Balance push whose message field is not the balance-update marker. -/
def pushC10 : BalancePush :=
  { message := "Transaction Received!", addressHash := "a0", balance := some 3,
    preBalance := some 4 }

/-- Frontier address of index 1 (hex `w1`) used by the C1 witness. -/
def addressW1 : IndexedAddress :=
  { oid := 11, index := 1, addressHex := "w1", balance := 0, preBalance := 0 }

/-- Frontier address of index 2 (hex `w2`) used by the C1 witness. -/
def addressW2 : IndexedAddress :=
  { oid := 12, index := 2, addressHex := "w2", balance := 0, preBalance := 0 }

/-- State with frontier entries for indices 1 and 2. -/
def stateC1 : WSState :=
  { indexedWallet := true,
    propagationSubscriptions := [(addressW1, 21), (addressW2, 22)],
    balanceSubscriptions := [],
    transactionsSubscriptions := [],
    wallet := wallet0,
    nextHandle := 30 }

/-- Propagation push carrying the hash of `addressW1`. -/
def pushC1 : PropagationPush := { addressHash := "w1" }

/-- Frontier address of index 1 (hex `m1`) used for C8. -/
def addressM1 : IndexedAddress :=
  { oid := 31, index := 1, addressHex := "m1", balance := 0, preBalance := 0 }

/-- Frontier address of index 2 (hex `m2`) used for C8. -/
def addressM2 : IndexedAddress :=
  { oid := 32, index := 2, addressHex := "m2", balance := 0, preBalance := 0 }

/-- State whose wallet has a maximum address count of 3 and whose
frontier holds indices 1 and 2: after index 1 is consumed, the next
frontier index, 3, is at the maximum. -/
def stateC8 : WSState :=
  { indexedWallet := true,
    propagationSubscriptions := [(addressM1, 41), (addressM2, 42)],
    balanceSubscriptions := [],
    transactionsSubscriptions := [],
    wallet := { addressMap := [], indexToAddressHexMap := [], transactionMap := [],
                maxAddress := some 3 },
    nextHandle := 50 }

/-- Propagation push carrying the hash of `addressM1`. -/
def pushC8 : PropagationPush := { addressHash := "m1" }

/-- The state of `stateC8` at the moment the frontier advance runs: the
consumed entry for `addressM1` has been removed, index 2 is the highest
remaining frontier index, and the next index, 3, is at the maximum. -/
def stateC8adv : WSState := { stateC8 with propagationSubscriptions := [(addressM2, 42)] }

theorem mapGet_mapSet_self {α β : Type} [DecidableEq α] (m : List (α × β)) (k : α) (v : β) :
    mapGet (mapSet m k v) k = some v := by
  induction m with
  | nil => simp [mapGet, mapSet]
  | cons hd tl ih =>
    obtain ⟨k0, v0⟩ := hd
    by_cases h : k0 = k
    · simp [mapGet, mapSet, h]
    · simp [mapGet, mapSet, h, ih]

theorem mapSet_of_get_none {α β : Type} [DecidableEq α] (m : List (α × β)) (k : α) (v : β)
    (h : mapGet m k = none) : mapSet m k v = m ++ [(k, v)] := by
  induction m with
  | nil => simp [mapSet]
  | cons hd tl ih =>
    obtain ⟨k0, v0⟩ := hd
    by_cases hk : k0 = k
    · simp [mapGet, hk] at h
    · simp [mapGet, hk] at h
      simp [mapSet, hk, ih h]

theorem reconnectFailures_succ (n counter : Nat) :
    reconnectFailures (n + 1) counter =
      if counter ≤ 6 then
        ((reconnectFailures n (counter + 1)).1 + 1, (reconnectFailures n (counter + 1)).2)
      else (0, 1) := rfl

theorem connectToAddress_fresh (addressHex : String) (s : WSState)
    (hbal : mapGet s.balanceSubscriptions addressHex = Option.none)
    (htx : mapGet s.transactionsSubscriptions addressHex = Option.none) :
    connectToAddress addressHex s =
      ({ s with
          balanceSubscriptions := s.balanceSubscriptions ++ [(addressHex, s.nextHandle)],
          transactionsSubscriptions :=
            s.transactionsSubscriptions ++ [(addressHex, s.nextHandle + 1)],
          nextHandle := s.nextHandle + 2 },
       [balanceTopic addressHex, transactionTopic addressHex]) := by
  unfold connectToAddress
  rw [hbal]
  simp only [htx, mapSet_of_get_none _ _ _ hbal, mapSet_of_get_none _ _ _ htx]
  rfl

theorem checkBalanceAndSubscribe_spec (genAddress : Nat → IndexedAddress)
    (snap : String → Amount × Amount) (address lastA : IndexedAddress) (lastHandle : Nat)
    (s : WSState)
    (hiw : s.indexedWallet = true)
    (hlast : s.propagationSubscriptions.getLast? = some (lastA, lastHandle))
    (hfresh : mapGet s.propagationSubscriptions (genAddress (lastA.index + 1)) = Option.none)
    (hbal : mapGet s.balanceSubscriptions address.addressHex = Option.none)
    (htx : mapGet s.transactionsSubscriptions address.addressHex = Option.none) :
    checkBalanceAndSubscribeNewAddress genAddress snap address s =
      some
        ({ s with
            propagationSubscriptions :=
              s.propagationSubscriptions ++ [(genAddress (lastA.index + 1), s.nextHandle)],
            balanceSubscriptions :=
              s.balanceSubscriptions ++ [(address.addressHex, s.nextHandle + 1)],
            transactionsSubscriptions :=
              s.transactionsSubscriptions ++ [(address.addressHex, s.nextHandle + 2)],
            wallet := s.wallet.setAddressToMap
              { address with
                  balance := (snap address.addressHex).1,
                  preBalance := (snap address.addressHex).2 },
            nextHandle := s.nextHandle + 3 },
         { subscribed :=
             [propagationTopic (genAddress (lastA.index + 1)).addressHex,
              balanceTopic address.addressHex, transactionTopic address.addressHex],
           unsubscribed := [],
           snapshotFetches := [address.addressHex],
           generateAddressEmits := [],
           balanceChangeEmits := [address.addressHex],
           receivedTransactionEmits := [] }) := by
  have hkeys : (s.propagationSubscriptions.map Prod.fst).getLast? = some lastA := by
    rw [List.getLast?_map, hlast]
    rfl
  unfold checkBalanceAndSubscribeNewAddress addressPropagationSubscriber
  rw [hiw]
  simp only [if_true, hkeys]
  rw [connectToAddress_fresh address.addressHex]
  · simp only [mapSet_of_get_none _ _ _ hfresh, WalletState.setAddressWithBalance]
    rfl
  · exact hbal
  · exact htx

theorem balanceCallback_addressMap (s : WSState) (p : BalancePush) (a : IndexedAddress)
    (hm : p.message = "Balance Updated!")
    (ha : mapGet s.wallet.addressMap p.addressHash = some a) :
    (balanceSubscriptionCallback p s).1.wallet.addressMap =
      mapSet s.wallet.addressMap a.addressHex
        { a with balance := p.balance.getD 0, preBalance := p.preBalance.getD 0 } := by
  unfold balanceSubscriptionCallback
  rw [if_pos hm, ha]
  rfl

theorem processBalancePushes_last (hex : String) :
    ∀ (pushes : List BalancePush) (s : WSState) (a : IndexedAddress),
      mapGet s.wallet.addressMap hex = some a → a.addressHex = hex →
      (∀ p ∈ pushes, p.message = "Balance Updated!" ∧ p.addressHash = hex) →
      ∀ plast, pushes.getLast? = some plast →
      ∃ a', mapGet (processBalancePushes pushes s).wallet.addressMap hex = some a' ∧
        a'.addressHex = hex ∧
        a'.balance = plast.balance.getD 0 ∧ a'.preBalance = plast.preBalance.getD 0 := by
  intro pushes
  induction pushes with
  | nil =>
    intro s a ha hhex hall plast hlast
    simp at hlast
  | cons p rest ih =>
    intro s a ha hhex hall plast hlast
    have hp := hall p (List.mem_cons_self p rest)
    have hmap : (balanceSubscriptionCallback p s).1.wallet.addressMap =
        mapSet s.wallet.addressMap a.addressHex
          { a with balance := p.balance.getD 0, preBalance := p.preBalance.getD 0 } :=
      balanceCallback_addressMap s p a hp.1 (by rw [hp.2]; exact ha)
    have ha1 : mapGet (balanceSubscriptionCallback p s).1.wallet.addressMap hex =
        some { a with balance := p.balance.getD 0, preBalance := p.preBalance.getD 0 } := by
      rw [hmap, hhex]
      exact mapGet_mapSet_self _ _ _
    have hstep : processBalancePushes (p :: rest) s =
        processBalancePushes rest (balanceSubscriptionCallback p s).1 := rfl
    cases rest with
    | nil =>
      have hp2 : plast = p := by
        simp [List.getLast?] at hlast
        exact hlast.symm
      subst hp2
      refine ⟨{ a with balance := plast.balance.getD 0, preBalance := plast.preBalance.getD 0 },
        ?_, hhex, rfl, rfl⟩
      rw [hstep]
      exact ha1
    | cons q rest' =>
      have hall' : ∀ x ∈ q :: rest', x.message = "Balance Updated!" ∧ x.addressHash = hex :=
        fun x hx => hall x (List.mem_cons_of_mem p hx)
      have hlast' : (q :: rest').getLast? = some plast := by
        rw [List.getLast?_cons_cons] at hlast
        exact hlast
      obtain ⟨a', h1, h2, h3, h4⟩ :=
        ih (balanceSubscriptionCallback p s).1 _ ha1 hhex hall' plast hlast'
      exact ⟨a', by rw [hstep]; exact h1, h2, h3, h4⟩

/-- Claim C2, counterexample: after 7 consecutive reconnect failures
(retry counter now 7, exceeding 6) the terminal reconnect-failure
callback has fired zero times, not once, and each of the 7 failures, the
7th included, started a further reconnect attempt. -/
theorem c2_seven_failures_counterexample : reconnectFailures 7 0 = (7, 0) := by decide

/-- Claim C2 (amended): for every run in which reconnect attempts fail
consecutively, after 8 consecutive reconnect failures the terminal
reconnect-failure callback fires exactly once and no further reconnect
attempt is started: the first 7 failures each restart `reconnect`
(counters 0 through 6), the 7th raises the counter to 7, and the 8th
failure, observed with the counter above 6, fires the callback and starts
nothing. -/
theorem c2_terminal_callback_after_eight_failures (n : Nat) (h : 8 ≤ n) :
    reconnectFailures n 0 = (7, 1) := by
  obtain ⟨m, rfl⟩ : ∃ m, n = m + 8 := ⟨n - 8, by omega⟩
  show reconnectFailures (m + 1 + 1 + 1 + 1 + 1 + 1 + 1 + 1) 0 = (7, 1)
  simp [reconnectFailures_succ]

/-- Witness for C2 at the concrete run of 9 consecutive failures. -/
theorem c2_terminal_callback_witness : 8 ≤ 9 ∧ reconnectFailures 9 0 = (7, 1) :=
  ⟨by norm_num, c2_terminal_callback_after_eight_failures 9 (by norm_num)⟩

/-- Claim C3, counterexample: on a state with one handle in each of the
three maps, the full teardown sweep leaves all three maps non-empty, with
every unsubscribe call failing. -/
theorem c3_sweep_counterexample :
    (addressesUnsubscribe (fun _ => true) stateC3).1.propagationSubscriptions ≠ [] ∧
    (addressesUnsubscribe (fun _ => true) stateC3).1.balanceSubscriptions ≠ [] ∧
    (addressesUnsubscribe (fun _ => true) stateC3).1.transactionsSubscriptions ≠ [] := by
  refine ⟨?_, ?_, ?_⟩ <;> decide

/-- Claim C3 (amended): after the full-teardown sweep completes,
unsubscribe has been invoked on every handle of all three subscription
maps, even if some individual unsubscribe calls fail, but the maps keep
all their entries: the sweep never clears them. -/
theorem c3_sweep_invokes_all_but_keeps_maps (fails : Nat → Bool) (s : WSState) :
    (addressesUnsubscribe fails s).1 = s ∧
    (addressesUnsubscribe fails s).2.1 =
      s.propagationSubscriptions.map Prod.snd ++ s.balanceSubscriptions.map Prod.snd ++
        s.transactionsSubscriptions.map Prod.snd :=
  ⟨rfl, rfl⟩

/-- Claim C4: for every stored transaction record, an incoming
transaction with the same hash and identical consensus-update timestamp
is a no-op (transaction map unchanged, no received-transaction event),
while one with the same hash but a different consensus-update timestamp
replaces the stored record and emits the event. -/
theorem c4_setTransaction_idempotent_merge (w : WalletState) (tx : Transaction)
    (r : ReducedTransaction) (hr : mapGet w.transactionMap tx.hash = some r) :
    (r.transactionConsensusUpdateTime = tx.transactionConsensusUpdateTime →
      w.setTransaction tx = (w, false)) ∧
    (r.transactionConsensusUpdateTime ≠ tx.transactionConsensusUpdateTime →
      w.setTransaction tx =
        ({ w with transactionMap :=
            mapSet w.transactionMap tx.hash (ReducedTransaction.ofTransaction tx) }, true)) := by
  unfold WalletState.setTransaction
  rw [hr]
  constructor
  · intro h
    simp [h]
  · intro h
    simp [h]

/-- Witness for C4 at a concrete wallet: the stored record and the push
share hash `t1` and consensus time 5, so the second push is a no-op. -/
theorem c4_setTransaction_witness :
    mapGet walletC4.transactionMap txC4.hash = some recC4 ∧
    recC4.transactionConsensusUpdateTime = txC4.transactionConsensusUpdateTime ∧
    walletC4.setTransaction txC4 = (walletC4, false) :=
  ⟨rfl, rfl, (c4_setTransaction_idempotent_merge walletC4 txC4 recC4 rfl).1 rfl⟩

/-- Claim C6: a propagation push whose payload address hash differs from
the subscribed address hex is dropped: the state (all three subscription
maps and the wallet) is unchanged, no handle is unsubscribed, no wallet
event is emitted, and the handler returns normally (the thrown Error is
caught inside it). -/
theorem c6_mismatched_propagation_push_dropped (genAddress : Nat → IndexedAddress)
    (snap : String → Amount × Amount) (address : IndexedAddress) (data : PropagationPush)
    (s : WSState) (h : data.addressHash ≠ address.addressHex) :
    addressPropagationCallback genAddress snap address data s = (s, Effects.none) := by
  unfold addressPropagationCallback
  rw [if_neg h]

/-- Witness for C6: a push carrying hash `b9` delivered to the
subscription of `sampleAddress` (hex `a0`) leaves `stateC3` untouched. -/
theorem c6_mismatched_push_witness :
    pushMismatch.addressHash ≠ sampleAddress.addressHex ∧
    addressPropagationCallback genSample snapSample sampleAddress pushMismatch stateC3 =
      (stateC3, Effects.none) :=
  ⟨by decide,
   c6_mismatched_propagation_push_dropped genSample snapSample sampleAddress pushMismatch stateC3
     (by decide)⟩

/-- Claim C10: a push on a balance topic whose parsed body carries a
message other than `Balance Updated!` changes no wallet state and emits
nothing: the whole state, the address map and all stored balances
included, is returned unchanged, no balanceChange event fires, and no
subscription is closed. -/
theorem c10_non_balance_message_is_ignored (data : BalancePush) (s : WSState)
    (h : data.message ≠ "Balance Updated!") :
    balanceSubscriptionCallback data s = (s, Effects.none) := by
  unfold balanceSubscriptionCallback
  rw [if_neg h]

/-- Witness for C10: a push whose message is `Transaction Received!` is
ignored on `stateC5` even though its address hash is known. -/
theorem c10_non_balance_message_witness :
    pushC10.message ≠ "Balance Updated!" ∧
    balanceSubscriptionCallback pushC10 stateC5 = (stateC5, Effects.none) :=
  ⟨by decide, c10_non_balance_message_is_ignored pushC10 stateC5 (by decide)⟩

/-- Claim C7 fails on the propagation kind: in `stateC7` the registry
already holds handle 3 for `sampleAddress`, yet calling the propagation
subscriber again opens a new transport subscription on the propagation
topic and overwrites the stored handle with the fresh handle 7 — the
source only logs its skip message and resubscribes anyway. -/
theorem c7_propagation_resubscribe_not_noop :
    mapGet stateC7.propagationSubscriptions sampleAddress = some 3 ∧
    (addressPropagationSubscriber sampleAddress stateC7).2 =
      [propagationTopic sampleAddress.addressHex] ∧
    mapGet (addressPropagationSubscriber sampleAddress stateC7).1.propagationSubscriptions
      sampleAddress = some 7 := by
  refine ⟨?_, rfl, ?_⟩ <;> decide

/-- Claim C9 fails: when the propagation map is empty at the moment the
frontier advance is requested (here `addressC9` was its only entry and
was just removed), `Array.from(keys()).pop()` is undefined and
`.getIndex()` throws, so the catch aborts everything after the removal:
no balance snapshot fetch is issued, no balance or transaction
subscription is opened, and the wallet stays untouched; only the removal,
the unsubscribe of handle 5 and the generateAddress emission survive. -/
theorem c9_empty_frontier_advance_aborts_tracking :
    addressPropagationCallback genSample snapSample addressC9 pushC9 stateC9 =
      ({ stateC9 with propagationSubscriptions := [] },
       { subscribed := [], unsubscribed := [5], snapshotFetches := [],
         generateAddressEmits := [addressC9.addressHex], balanceChangeEmits := [],
         receivedTransactionEmits := [] }) := by
  decide

/-- Claim C5: for every sequence of balance pushes for an address present
in the wallet address map, the stored (balance, preBalance) pair after
processing the whole sequence equals the values of the last push, with a
null balance or null preBalance mapped to zero. -/
theorem c5_last_balance_push_wins (s : WSState) (hex : String) (a : IndexedAddress)
    (pushes : List BalancePush) (plast : BalancePush)
    (ha : mapGet s.wallet.addressMap hex = some a) (hhex : a.addressHex = hex)
    (hall : ∀ p ∈ pushes, p.message = "Balance Updated!" ∧ p.addressHash = hex)
    (hlast : pushes.getLast? = some plast) :
    (mapGet (processBalancePushes pushes s).wallet.addressMap hex).map
        (fun x => (x.balance, x.preBalance)) =
      some (plast.balance.getD 0, plast.preBalance.getD 0) := by
  obtain ⟨a', h1, _, h3, h4⟩ := processBalancePushes_last hex pushes s a ha hhex hall plast hlast
  rw [h1]
  simp [h3, h4]

/-- Witness for C5: two pushes for `addressC5` (balance 3 / preBalance
null, then balance null / preBalance 8) leave the stored pair at (0, 8),
the values of the last push with null mapped to zero. -/
theorem c5_last_balance_push_witness :
    mapGet stateC5.wallet.addressMap hexC5 = some addressC5 ∧
    addressC5.addressHex = hexC5 ∧
    (∀ p ∈ [pushC5a, pushC5b], p.message = "Balance Updated!" ∧ p.addressHash = hexC5) ∧
    [pushC5a, pushC5b].getLast? = some pushC5b ∧
    (mapGet (processBalancePushes [pushC5a, pushC5b] stateC5).wallet.addressMap hexC5).map
        (fun x => (x.balance, x.preBalance)) = some ((0 : Amount), (8 : Amount)) :=
  ⟨rfl, rfl, by decide, rfl,
   c5_last_balance_push_wins stateC5 hexC5 addressC5 [pushC5a, pushC5b] pushC5b rfl rfl
     (by decide) rfl⟩

/-- Claim C1: a propagation push whose payload hash matches a frontier
address still registered in the propagation map removes exactly that
entry (unsubscribing its handle), opens exactly one new propagation
subscription for the index one past the current highest frontier index
(the last key of the map, whose index is maximal among the remaining
entries), issues exactly one balance snapshot fetch for the confirmed
address, applies its result to the wallet through
`setAddressWithBalance`, and opens balance and transaction subscriptions
for the confirmed address; every other frontier entry is left in
place. -/
theorem c1_propagation_confirmation (genAddress : Nat → IndexedAddress)
    (snap : String → Amount × Amount) (address lastA : IndexedAddress)
    (handle lastHandle : Nat) (data : PropagationPush) (s : WSState)
    (hiw : s.indexedWallet = true)
    (hmatch : data.addressHash = address.addressHex)
    (hreg : mapGet s.propagationSubscriptions address = some handle)
    (hlast : (mapDelete s.propagationSubscriptions address).getLast? = some (lastA, lastHandle))
    (hhighest : ∀ p ∈ mapDelete s.propagationSubscriptions address, p.1.index ≤ lastA.index)
    (hidx : (genAddress (lastA.index + 1)).index = lastA.index + 1)
    (hfresh : mapGet (mapDelete s.propagationSubscriptions address)
        (genAddress (lastA.index + 1)) = Option.none)
    (hbal : mapGet s.balanceSubscriptions address.addressHex = Option.none)
    (htx : mapGet s.transactionsSubscriptions address.addressHex = Option.none) :
    addressPropagationCallback genAddress snap address data s =
      ({ s with
          propagationSubscriptions :=
            mapDelete s.propagationSubscriptions address ++
              [(genAddress (lastA.index + 1), s.nextHandle)],
          balanceSubscriptions :=
            s.balanceSubscriptions ++ [(address.addressHex, s.nextHandle + 1)],
          transactionsSubscriptions :=
            s.transactionsSubscriptions ++ [(address.addressHex, s.nextHandle + 2)],
          wallet := s.wallet.setAddressToMap
            { address with
                balance := (snap address.addressHex).1,
                preBalance := (snap address.addressHex).2 },
          nextHandle := s.nextHandle + 3 },
       { subscribed :=
           [propagationTopic (genAddress (lastA.index + 1)).addressHex,
            balanceTopic address.addressHex, transactionTopic address.addressHex],
         unsubscribed := [handle],
         snapshotFetches := [address.addressHex],
         generateAddressEmits := [address.addressHex],
         balanceChangeEmits := [address.addressHex],
         receivedTransactionEmits := [] }) := by
  unfold addressPropagationCallback
  rw [if_pos hmatch]
  simp only [hreg]
  rw [checkBalanceAndSubscribe_spec genAddress snap address lastA lastHandle
      { s with propagationSubscriptions := mapDelete s.propagationSubscriptions address }
      hiw hlast hfresh hbal htx]
  simp [Effects.append]

/-- Witness for C1: confirming the frontier entry of index 1 in a
frontier of indices 1 and 2 removes it, subscribes propagation for index
3, fetches one snapshot and applies it, and opens balance and transaction
subscriptions for the confirmed address. -/
theorem c1_propagation_confirmation_witness :
    stateC1.indexedWallet = true ∧
    pushC1.addressHash = addressW1.addressHex ∧
    mapGet stateC1.propagationSubscriptions addressW1 = some 21 ∧
    (mapDelete stateC1.propagationSubscriptions addressW1).getLast? = some (addressW2, 22) ∧
    (∀ p ∈ mapDelete stateC1.propagationSubscriptions addressW1, p.1.index ≤ addressW2.index) ∧
    (genSample (addressW2.index + 1)).index = addressW2.index + 1 ∧
    mapGet (mapDelete stateC1.propagationSubscriptions addressW1)
      (genSample (addressW2.index + 1)) = Option.none ∧
    mapGet stateC1.balanceSubscriptions addressW1.addressHex = Option.none ∧
    mapGet stateC1.transactionsSubscriptions addressW1.addressHex = Option.none ∧
    addressPropagationCallback genSample snapSample addressW1 pushC1 stateC1 =
      ({ stateC1 with
          propagationSubscriptions :=
            mapDelete stateC1.propagationSubscriptions addressW1 ++
              [(genSample (addressW2.index + 1), stateC1.nextHandle)],
          balanceSubscriptions :=
            stateC1.balanceSubscriptions ++ [(addressW1.addressHex, stateC1.nextHandle + 1)],
          transactionsSubscriptions :=
            stateC1.transactionsSubscriptions ++ [(addressW1.addressHex, stateC1.nextHandle + 2)],
          wallet := stateC1.wallet.setAddressToMap
            { addressW1 with
                balance := (snapSample addressW1.addressHex).1,
                preBalance := (snapSample addressW1.addressHex).2 },
          nextHandle := stateC1.nextHandle + 3 },
       { subscribed :=
           [propagationTopic (genSample (addressW2.index + 1)).addressHex,
            balanceTopic addressW1.addressHex, transactionTopic addressW1.addressHex],
         unsubscribed := [21],
         snapshotFetches := [addressW1.addressHex],
         generateAddressEmits := [addressW1.addressHex],
         balanceChangeEmits := [addressW1.addressHex],
         receivedTransactionEmits := [] }) := by
  refine ⟨rfl, rfl, by decide, by decide, by decide, rfl, by decide, rfl, rfl, ?_⟩
  exact c1_propagation_confirmation genSample snapSample addressW1 addressW2 21 22 pushC1 stateC1
    rfl rfl (by decide) (by decide) (by decide) rfl (by decide) rfl rfl

/-- Claim C8, counterexample: in `stateC8` the maximum address count 3 is
reached once index 1 is consumed (the next frontier index is 3), yet the
frontier advance still opens a propagation subscription for index 3: the
propagation map ends with two entries, not shrunk to one, and a
propagation topic is subscribed on the transport. -/
theorem c8_max_reached_counterexample :
    stateC8.wallet.maxAddress = some 3 ∧
    (addressPropagationCallback genSample snapSample addressM1 pushC8 stateC8).1.propagationSubscriptions =
      [(addressM2, 42), (genSample 3, 50)] ∧
    (addressPropagationCallback genSample snapSample addressM1 pushC8 stateC8).2.subscribed =
      [propagationTopic (genSample 3).addressHex, balanceTopic addressM1.addressHex,
       transactionTopic addressM1.addressHex] := by
  refine ⟨rfl, ?_, ?_⟩ <;> decide

/-- Claim C8 (amended): when a frontier advance is requested and the
configured maximum address count has been reached (the next frontier
index is at or past the maximum), the advance behaves exactly as in the
unbounded case: one new propagation subscription is still opened for the
index one past the highest remaining frontier index, so the frontier does
not shrink; the maximum is consulted only by the initial `onConnected`
seeding loop, never by the advance path. -/
theorem c8_max_not_enforced_on_advance (genAddress : Nat → IndexedAddress)
    (snap : String → Amount × Amount) (address lastA : IndexedAddress) (lastHandle m : Nat)
    (s : WSState)
    (hiw : s.indexedWallet = true)
    (hmax : s.wallet.maxAddress = some m)
    (hreached : m ≤ lastA.index + 1)
    (hlast : s.propagationSubscriptions.getLast? = some (lastA, lastHandle))
    (hfresh : mapGet s.propagationSubscriptions (genAddress (lastA.index + 1)) = Option.none)
    (hbal : mapGet s.balanceSubscriptions address.addressHex = Option.none)
    (htx : mapGet s.transactionsSubscriptions address.addressHex = Option.none) :
    (checkBalanceAndSubscribeNewAddress genAddress snap address s).map
        (fun r => r.1.propagationSubscriptions) =
      some (s.propagationSubscriptions ++ [(genAddress (lastA.index + 1), s.nextHandle)]) ∧
    (checkBalanceAndSubscribeNewAddress genAddress snap address s).map
        (fun r => r.2.subscribed.head?) =
      some (some (propagationTopic (genAddress (lastA.index + 1)).addressHex)) := by
  rw [checkBalanceAndSubscribe_spec genAddress snap address lastA lastHandle s hiw hlast hfresh
    hbal htx]
  exact ⟨rfl, rfl⟩

/-- Witness for the amended C8 at the concrete advance state: maximum 3
reached, index 3 subscribed anyway. -/
theorem c8_max_not_enforced_witness :
    stateC8adv.indexedWallet = true ∧
    stateC8adv.wallet.maxAddress = some 3 ∧
    3 ≤ addressM2.index + 1 ∧
    stateC8adv.propagationSubscriptions.getLast? = some (addressM2, 42) ∧
    mapGet stateC8adv.propagationSubscriptions (genSample (addressM2.index + 1)) = Option.none ∧
    mapGet stateC8adv.balanceSubscriptions addressM1.addressHex = Option.none ∧
    mapGet stateC8adv.transactionsSubscriptions addressM1.addressHex = Option.none ∧
    ((checkBalanceAndSubscribeNewAddress genSample snapSample addressM1 stateC8adv).map
        (fun r => r.1.propagationSubscriptions) =
      some (stateC8adv.propagationSubscriptions ++
        [(genSample (addressM2.index + 1), stateC8adv.nextHandle)]) ∧
     (checkBalanceAndSubscribeNewAddress genSample snapSample addressM1 stateC8adv).map
        (fun r => r.2.subscribed.head?) =
      some (some (propagationTopic (genSample (addressM2.index + 1)).addressHex))) := by
  refine ⟨rfl, rfl, by decide, rfl, by decide, rfl, rfl, ?_⟩
  exact c8_max_not_enforced_on_advance genSample snapSample addressM1 addressM2 42 3 stateC8adv
    rfl rfl (by decide) rfl (by decide) rfl rfl
